import Mathlib

/-!
Verification of the payment-gateway core (services/payments.py,
services/refunds.py, services/callbacks.py, worker.py, core/models.py)
against its specification.

The embedding is a shallow one: each service method becomes a pure state
transformer over `GatewayState`, a snapshot of the five relational tables.
Database peculiarities that the claims depend on are modelled explicitly:

* `scalar_one_or_none` / `scalar_one` raise on multiple rows, so row lookup
  returns `Except DbError`;
* the CHECK constraints of core/models.py (`amount > 0`,
  `ck_payments_paid_at_matches_status`, `refund_amount > 0`,
  `ck_refunds_refunded_at_matches_status`) are enforced when a transaction
  commits: `commitTx` rolls the state back when they are violated, which is
  what happens in PostgreSQL (IntegrityError, transaction aborted);
* Python truthiness on optional strings (`if not notify_url`,
  `req.notify_url or app.notify_url`) is modelled by `pyTruthy`;
* SQL `NULL` never equals `NULL` in the callback dedup key, hence `optEqSql`;
* wall-clock times are rationals, `uuid4()` results are `Nat` parameters and
  `random.uniform(0, b)` is a rational parameter constrained by hypotheses.
-/

namespace PaymentGateway

/-- Provider enum of core/constants.py. -/
inductive Provider
  | stripe
  | alipay
  | wechatpay
deriving Repr, DecidableEq

/-- Conversion `Provider(value)` used by `_process_refund_callback`;
`none` models the `ValueError` branch. -/
def Provider.ofString (s : String) : Option Provider :=
  if s = "stripe" then some .stripe
  else if s = "alipay" then some .alipay
  else if s = "wechatpay" then some .wechatpay
  else none

/-- Currency enum of core/constants.py. -/
inductive Currency
  | USD | CNY | HKD | KRW | THB | EUR | GBP | JPY | INR
deriving Repr, DecidableEq

/-- String value of a currency (`.value` of the str enum). -/
def Currency.str : Currency → String
  | .USD => "USD"
  | .CNY => "CNY"
  | .HKD => "HKD"
  | .KRW => "KRW"
  | .THB => "THB"
  | .EUR => "EUR"
  | .GBP => "GBP"
  | .JPY => "JPY"
  | .INR => "INR"

/-- PaymentStatus enum of core/constants.py. -/
inductive PaymentStatus
  | pending
  | succeeded
  | failed
  | canceled
deriving Repr, DecidableEq

/-- String value of a payment status (`.value` of the str enum). -/
def PaymentStatus.str : PaymentStatus → String
  | .pending => "pending"
  | .succeeded => "succeeded"
  | .failed => "failed"
  | .canceled => "canceled"

/-- CallbackStatus enum of core/constants.py. -/
inductive CallbackStatus
  | received
  | processing
  | processed
  | failed
deriving Repr, DecidableEq

/-- DeliveryStatus enum of core/constants.py. -/
inductive DeliveryStatus
  | pending
  | processing
  | succeeded
  | failed
  | dead
deriving Repr, DecidableEq

/-- RefundStatus enum of core/constants.py. -/
inductive RefundStatus
  | pending
  | succeeded
  | failed
  | canceled
deriving Repr, DecidableEq

/-- String value of a refund status (`.value` of the str enum). -/
def RefundStatus.str : RefundStatus → String
  | .pending => "pending"
  | .succeeded => "succeeded"
  | .failed => "failed"
  | .canceled => "canceled"

/-- Python truthiness of an optional string: `None` and `""` are falsy. -/
def pyTruthy : Option String → Bool
  | none => false
  | some s => s != ""

/-- Python `a or b` on optional strings (`req.notify_url or app.notify_url`). -/
def pyOr (a b : Option String) : Option String :=
  if pyTruthy a then a else b

/-- SQL equality against a possibly NULL column: NULL compares unequal to
everything, including NULL. Used for the callback dedup key, whose
`provider` component comes from `raw_payload.get("provider")`. -/
def optEqSql : Option String → Option String → Bool
  | some a, some b => a == b
  | _, _ => false

/-- Python `s.rstrip("/")`: drop every trailing slash. -/
def rstripSlash (s : String) : String :=
  String.mk ((s.data.reverse.dropWhile (fun c => c == '/')).reverse)

/-- Python `s.startswith(pre)`, evaluated on the character lists. -/
def strStartsWith (s pre : String) : Bool :=
  List.isPrefixOf pre.data s.data

/-- Decidable equality of `Except` results, for concrete evaluation. -/
instance {ε α : Type} [DecidableEq ε] [DecidableEq α] : DecidableEq (Except ε α) :=
  fun a b =>
    match a, b with
    | .error x, .error y =>
      if h : x = y then isTrue (by rw [h])
      else isFalse (fun hc => h (by cases hc; rfl))
    | .error _, .ok _ => isFalse (fun hc => Except.noConfusion hc)
    | .ok _, .error _ => isFalse (fun hc => Except.noConfusion hc)
    | .ok x, .ok y =>
      if h : x = y then isTrue (by rw [h])
      else isFalse (fun hc => h (by cases hc; rfl))

/-- Errors surfaced by the SQLAlchemy session. -/
inductive DbError
  | noResultFound
  | multipleResultsFound
  | integrityError
deriving Repr, DecidableEq

/-- `session.execute(stmt); result.scalar_one_or_none()`. -/
def scalarOneOrNone {α : Type} : List α → Except DbError (Option α)
  | [] => .ok none
  | [a] => .ok (some a)
  | _ :: _ :: _ => .error .multipleResultsFound

/-- `session.execute(stmt); result.scalar_one()`. -/
def scalarOne {α : Type} : List α → Except DbError α
  | [] => .error .noResultFound
  | [a] => .ok a
  | _ :: _ :: _ => .error .multipleResultsFound

/-- App row (core/models.py); only the columns the modelled services read. -/
structure App where
  id : Nat
  notify_url : Option String
deriving Repr, DecidableEq

/-- Payment row (core/models.py). -/
structure Payment where
  id : Nat
  app_id : Nat
  merchant_order_no : String
  provider : Provider
  amount : Int
  currency : Currency
  status : PaymentStatus
  provider_txn_id : Option String
  notify_url : Option String
  paid_at : Option ℚ
deriving Repr, DecidableEq

/-- The slice of a callback's `raw_payload` document that the Callback
Service reads: `raw_payload.get("provider")` and
`raw_payload.get("data", {}).get("object", {}).get("id")`. -/
structure RawPayload where
  provider : Option String
  data_object_id : Option String
deriving Repr, DecidableEq

/-- Canonical callback event (core/schemas.py `CallbackEvent`, whose fields
are visible through gateway/schemas.py and every consumer). -/
structure CallbackEvent where
  provider_event_id : String
  provider_txn_id : Option String
  merchant_order_no : Option String
  outcome : String
  raw_payload : RawPayload
deriving Repr, DecidableEq

/-- Callback row (core/models.py). `provider` is kept as the raw optional
string that `_upsert_callback` writes into the column. -/
structure Callback where
  id : Nat
  provider : Option String
  provider_event_id : String
  provider_txn_id : Option String
  payment_id : Option Nat
  payload : RawPayload
  status : CallbackStatus
  processed_at : Option ℚ
deriving Repr, DecidableEq

/-- Outbound webhook payload for a payment, as built by
`_create_payment_webhook_delivery`. -/
structure PaymentWebhookBody where
  payment_id : Nat
  merchant_order_no : String
  status : String
  amount : Int
  currency : String
  provider_txn_id : Option String
  paid_at : Option ℚ
deriving Repr, DecidableEq

/-- Outbound webhook payload for a refund, as built by
`_create_refund_webhook_delivery`. -/
structure RefundWebhookBody where
  refund_id : Nat
  payment_id : Nat
  merchant_order_no : String
  status : String
  refund_amount : Int
  provider_refund_id : Option String
  refunded_at : Option ℚ
  reason : Option String
  currency : String
deriving Repr, DecidableEq

/-- Body part of an outbound delivery payload. -/
inductive WebhookBody
  | payment (b : PaymentWebhookBody)
  | refund (b : RefundWebhookBody)
deriving Repr, DecidableEq

/-- Full outbound delivery payload: `{"event_id": …, "event_type": …, **payload}`. -/
structure DeliveryPayload where
  event_id : String
  event_type : String
  body : WebhookBody
deriving Repr, DecidableEq

/-- WebhookDelivery row (core/models.py). -/
structure WebhookDelivery where
  id : Nat
  app_id : Nat
  payment_id : Option Nat
  event_id : String
  event_type : String
  notify_url : String
  payload : DeliveryPayload
  status : DeliveryStatus
  attempt_count : Nat
  next_attempt_at : Option ℚ
  last_attempt_at : Option ℚ
  last_http_status : Option Nat
  last_error : Option String
  delivered_at : Option ℚ
deriving Repr, DecidableEq

/-- Refund row (core/models.py). -/
structure Refund where
  id : Nat
  payment_id : Nat
  refund_amount : Int
  reason : Option String
  status : RefundStatus
  provider : Provider
  provider_refund_id : Option String
  refunded_at : Option ℚ
deriving Repr, DecidableEq

/-- Snapshot of the five tables. -/
structure GatewayState where
  apps : List App
  payments : List Payment
  callbacks : List Callback
  refunds : List Refund
  deliveries : List WebhookDelivery
deriving Repr, DecidableEq

/-- CHECK constraints on a payment row: `ck_payments_amount_positive` and
`ck_payments_paid_at_matches_status`. -/
def paymentCheckOk (p : Payment) : Bool :=
  decide (0 < p.amount) &&
    (match p.status, p.paid_at with
      | .succeeded, some _ => true
      | .succeeded, none => false
      | _, some _ => false
      | _, none => true)

/-- CHECK constraints on a refund row: `ck_refunds_amount_positive` and
`ck_refunds_refunded_at_matches_status`. -/
def refundCheckOk (r : Refund) : Bool :=
  decide (0 < r.refund_amount) &&
    (match r.status, r.refunded_at with
      | .succeeded, some _ => true
      | .succeeded, none => false
      | _, some _ => false
      | _, none => true)

/-- All database CHECK constraints over the state. -/
def stateChecksOk (st : GatewayState) : Bool :=
  st.payments.all paymentCheckOk && st.refunds.all refundCheckOk

/-- `session.commit()`: on a CHECK-constraint violation PostgreSQL raises
IntegrityError and the transaction is rolled back, restoring `st0`. -/
def commitTx (st0 stNew : GatewayState) : Except DbError Unit × GatewayState :=
  if stateChecksOk stNew then (.ok (), stNew) else (.error .integrityError, st0)

/-- Write back a mutated payment row (UPDATE by primary key). -/
def setPaymentIn (ps : List Payment) (p' : Payment) : List Payment :=
  ps.map (fun x => if x.id == p'.id then p' else x)

/-- Write back a mutated payment row in the whole state. -/
def setPayment (st : GatewayState) (p' : Payment) : GatewayState :=
  { st with payments := setPaymentIn st.payments p' }

/-- Write back a mutated callback row. -/
def setCallback (st : GatewayState) (c' : Callback) : GatewayState :=
  { st with callbacks := st.callbacks.map (fun x => if x.id == c'.id then c' else x) }

/-- Write back a mutated refund row. -/
def setRefund (st : GatewayState) (r' : Refund) : GatewayState :=
  { st with refunds := st.refunds.map (fun x => if x.id == r'.id then r' else x) }

/-- Write back a mutated delivery row. -/
def setDelivery (st : GatewayState) (d' : WebhookDelivery) : GatewayState :=
  { st with deliveries := st.deliveries.map (fun x => if x.id == d'.id then d' else x) }

/-- Service-layer error taxonomy (core/exceptions.py), restricted to the
errors the modelled methods raise. `conflictIdem` is ConflictException 4091
with its `details` dict; `conflictRace` is ConflictException 4092. -/
structure IdemConflictDetails where
  merchant_order_no : String
  existing_amount : Int
  existing_currency : Currency
  existing_provider : Provider
  request_amount : Int
  request_currency : Currency
  request_provider : Provider
deriving Repr, DecidableEq

/-- Structured errors raised by the service layer. -/
inductive ServiceError
  | conflictIdem (d : IdemConflictDetails)
  | conflictRace
  | notFound (code : Nat)
  | badRequest (code : Nat)
  | serviceUnavailable (code : Nat)
  | internalServer (code : Nat)
  | dbError (e : DbError)
deriving Repr, DecidableEq

/-- Modelled from the spec: `CreatePaymentRequest` lives in
gateway/core/schemas.py, which is absent from the tree. Its fields are the
ones `PaymentService.create_or_get_payment` and the payments router read;
per §4.1 the request carries `unit_amount` and `quantity`, and the service
guards `unit_amount` with `(req.unit_amount or 0)`, so it is optional. -/
structure CreatePaymentRequest where
  merchant_order_no : String
  provider : Provider
  unit_amount : Option Int
  quantity : Int
  currency : Currency
  notify_url : Option String
deriving Repr, DecidableEq

/-- Modelled from the spec: `CreateRefundRequest` lives in the absent
gateway/core/schemas.py; fields are the ones `RefundService.create_refund`
reads, with `refund_amount = None` meaning full refund (§4.5). -/
structure CreateRefundRequest where
  payment_id : Nat
  refund_amount : Option Int
  reason : Option String
deriving Repr, DecidableEq

/-- `request_total_amount = (req.unit_amount or 0) * req.quantity`
(services/payments.py lines 60 and 99). -/
def reqTotalAmount (req : CreatePaymentRequest) : Int :=
  req.unit_amount.getD 0 * req.quantity

/-- The Payment row constructed by `create_or_get_payment` (lines 102-112)
before it is flushed. -/
def newPaymentOf (app : App) (req : CreatePaymentRequest) (newId : Nat) : Payment :=
  { id := newId
    app_id := app.id
    merchant_order_no := req.merchant_order_no
    provider := req.provider
    amount := reqTotalAmount req
    currency := req.currency
    status := .pending
    provider_txn_id := none
    notify_url := pyOr req.notify_url app.notify_url
    paid_at := none }

/-- `PaymentService.create_or_get_payment`. The initial SELECT runs against
`stSel`; the INSERT is flushed against `stFlush`, which may additionally
contain rows committed concurrently between the two (`stSel = stFlush` in
the sequential case). A unique-constraint or CHECK violation at flush is
the IntegrityError branch: rollback and ConflictException 4092. -/
def createOrGetPayment (app : App) (req : CreatePaymentRequest) (newId : Nat)
    (stSel stFlush : GatewayState) :
    Except ServiceError (Payment × Bool) × GatewayState :=
  match scalarOneOrNone (stSel.payments.filter
      (fun p => p.app_id == app.id && p.merchant_order_no == req.merchant_order_no)) with
  | .error e => (.error (.dbError e), stSel)
  | .ok (some existing) =>
    if existing.amount ≠ reqTotalAmount req ∨ existing.currency ≠ req.currency
        ∨ existing.provider ≠ req.provider then
      (.error (.conflictIdem
        { merchant_order_no := req.merchant_order_no
          existing_amount := existing.amount
          existing_currency := existing.currency
          existing_provider := existing.provider
          request_amount := reqTotalAmount req
          request_currency := req.currency
          request_provider := req.provider }), stSel)
    else
      (.ok (existing, false), stSel)
  | .ok none =>
    if stFlush.payments.any
        (fun p => p.app_id == app.id && p.merchant_order_no == req.merchant_order_no)
        || !paymentCheckOk (newPaymentOf app req newId) then
      (.error .conflictRace, stFlush)
    else
      (.ok (newPaymentOf app req newId, true),
        { stFlush with payments := stFlush.payments ++ [newPaymentOf app req newId] })

/-- `PaymentService.update_payment_status`: unconditional status overwrite,
`provider_txn_id` backfill, `paid_at` set on transition to succeeded. -/
def updatePaymentStatus (payment : Payment) (new_status : PaymentStatus)
    (provider_txn_id : Option String) (now : ℚ) : Payment :=
  { payment with
    status := new_status
    provider_txn_id :=
      if pyTruthy provider_txn_id && !pyTruthy payment.provider_txn_id then
        provider_txn_id
      else payment.provider_txn_id
    paid_at :=
      if new_status = .succeeded && !payment.paid_at.isSome then some now
      else payment.paid_at }

/-- `update_payment_status` followed by the caller's `session.commit()`
(routers/payments.py cancel flow). -/
def updatePaymentStatusTx (st : GatewayState) (payment : Payment)
    (new_status : PaymentStatus) (provider_txn_id : Option String) (now : ℚ) :
    Except DbError Unit × GatewayState :=
  commitTx st (setPayment st (updatePaymentStatus payment new_status provider_txn_id now))

/-- `CallbackService._map_outcome_to_status`. -/
def mapOutcomeToStatus (outcome : String) : Option PaymentStatus :=
  if outcome = "succeeded" then some .succeeded
  else if outcome = "failed" then some .failed
  else if outcome = "canceled" then some .canceled
  else if outcome = "expired" then some .canceled
  else if outcome = "pending" then some .pending
  else none

/-- Refund outcome map of `_process_refund_callback`. -/
def mapRefundOutcome (outcome : String) : Option RefundStatus :=
  if outcome = "refund_succeeded" then some .succeeded
  else if outcome = "refund_failed" then some .failed
  else if outcome = "refund_pending" then some .pending
  else if outcome = "refund_canceled" then some .canceled
  else none

/-- The mutation `_process_payment_callback` applies to the located payment
row (lines 146-156): overwrite the status whenever the mapped outcome
differs from the current one — with no terminal-state guard — backfilling
`provider_txn_id` and setting `paid_at` on a transition to succeeded. -/
def applyPaymentUpdate (ev : CallbackEvent) (now : ℚ) (q : Payment) : Payment :=
  match mapOutcomeToStatus ev.outcome with
  | some s =>
    if s ≠ q.status then
      { q with
        status := s
        provider_txn_id :=
          if pyTruthy ev.provider_txn_id && !pyTruthy q.provider_txn_id then
            ev.provider_txn_id
          else q.provider_txn_id
        paid_at :=
          if s = .succeeded && !q.paid_at.isSome then some now else q.paid_at }
    else q
  | none => q

/-- Fallback lookup of `_find_payment`: by `provider_txn_id` when the event
carries one. -/
def findPaymentByTxn (st : GatewayState) (ev : CallbackEvent) :
    Except DbError (Option Payment) :=
  if pyTruthy ev.provider_txn_id then
    scalarOneOrNone (st.payments.filter
      (fun p => p.provider_txn_id == ev.provider_txn_id))
  else .ok none

/-- `CallbackService._find_payment`: by `merchant_order_no` first, then by
`provider_txn_id`, with Python truthiness on both event fields and no
filter on `app_id` or `provider`. -/
def findPayment (st : GatewayState) (ev : CallbackEvent) :
    Except DbError (Option Payment) :=
  if pyTruthy ev.merchant_order_no then
    match scalarOneOrNone (st.payments.filter
        (fun p => some p.merchant_order_no == ev.merchant_order_no)) with
    | .error e => .error e
    | .ok (some p) => .ok (some p)
    | .ok none => findPaymentByTxn st ev
  else findPaymentByTxn st ev

/-- The fresh Callback row `_upsert_callback` tries to INSERT. -/
def candidateCallback (ev : CallbackEvent) (newCallbackId : Nat) : Callback :=
  { id := newCallbackId
    provider := ev.raw_payload.provider
    provider_event_id := ev.provider_event_id
    provider_txn_id := ev.provider_txn_id
    payment_id := none
    payload := ev.raw_payload
    status := .processing
    processed_at := none }

/-- Match on the `(provider, provider_event_id)` dedup key (SQL NULL
semantics for the raw provider value). -/
def callbackDedupKeyMatches (ev : CallbackEvent) (c : Callback) : Bool :=
  optEqSql c.provider ev.raw_payload.provider && c.provider_event_id == ev.provider_event_id

/-- `CallbackService._upsert_callback`: try to INSERT; on the
`(provider, provider_event_id)` unique violation roll back and re-read the
existing row with `scalar_one`. -/
def upsertCallback (ev : CallbackEvent) (newCallbackId : Nat) (st0 : GatewayState) :
    Except DbError (Callback × GatewayState) :=
  if st0.callbacks.any (callbackDedupKeyMatches ev) then
    match scalarOne (st0.callbacks.filter (callbackDedupKeyMatches ev)) with
    | .error e => .error e
    | .ok existing => .ok (existing, st0)
  else
    .ok (candidateCallback ev newCallbackId,
      { st0 with callbacks := st0.callbacks ++ [candidateCallback ev newCallbackId] })

/-- Resolution of the outbound notify URL in `_create_webhook_delivery`:
the payment's own `notify_url`, else the owning app's. -/
def resolveNotifyUrl (st : GatewayState) (payment : Payment) :
    Except DbError (Option String) :=
  if pyTruthy payment.notify_url then .ok payment.notify_url
  else
    match scalarOneOrNone (st.apps.filter (fun a => a.id == payment.app_id)) with
    | .error e => .error e
    | .ok r => .ok (r.bind (fun a => a.notify_url))

/-- `CallbackService._create_webhook_delivery`: resolve the notify URL (drop
the task when none), then upsert the row keyed by `(app_id, event_id)` —
an existing row is re-queued with its counters and diagnostics reset, a
missing row is inserted as pending. -/
def createWebhookDelivery (payment : Payment) (event_id event_type : String)
    (body : WebhookBody) (path_suffix : String) (newDeliveryId : Nat) (now : ℚ)
    (st : GatewayState) : Except DbError GatewayState :=
  match resolveNotifyUrl st payment with
  | .error e => .error e
  | .ok nu =>
    if !pyTruthy nu then .ok st
    else
      let url := rstripSlash (nu.getD "") ++ path_suffix
      let pl : DeliveryPayload :=
        { event_id := event_id, event_type := event_type, body := body }
      match scalarOneOrNone (st.deliveries.filter
          (fun d => d.app_id == payment.app_id && d.event_id == event_id)) with
      | .error e => .error e
      | .ok (some existing) =>
        .ok (setDelivery st
          { existing with
            notify_url := url
            payload := pl
            status := .pending
            attempt_count := 0
            next_attempt_at := some now
            last_attempt_at := none
            last_http_status := none
            last_error := none
            delivered_at := none })
      | .ok none =>
        .ok { st with deliveries := st.deliveries ++
          [{ id := newDeliveryId
             app_id := payment.app_id
             payment_id := some payment.id
             event_id := event_id
             event_type := event_type
             notify_url := url
             payload := pl
             status := .pending
             attempt_count := 0
             next_attempt_at := some now
             last_attempt_at := none
             last_http_status := none
             last_error := none
             delivered_at := none }] }

/-- `CallbackService._create_payment_webhook_delivery`. -/
def createPaymentWebhookDelivery (payment : Payment) (event_status : PaymentStatus)
    (newDeliveryId : Nat) (now : ℚ) (st : GatewayState) :
    Except DbError GatewayState :=
  createWebhookDelivery payment
    (toString payment.id ++ "_" ++ event_status.str)
    ("payment." ++ event_status.str)
    (.payment
      { payment_id := payment.id
        merchant_order_no := payment.merchant_order_no
        status := payment.status.str
        amount := payment.amount
        currency := payment.currency.str
        provider_txn_id := payment.provider_txn_id
        paid_at := payment.paid_at })
    "/callback/payment" newDeliveryId now st

/-- `CallbackService._create_refund_webhook_delivery`. -/
def createRefundWebhookDelivery (payment : Payment) (refund : Refund)
    (event_status : RefundStatus) (newDeliveryId : Nat) (now : ℚ)
    (st : GatewayState) : Except DbError GatewayState :=
  createWebhookDelivery payment
    (toString refund.id ++ "_" ++ event_status.str)
    ("refund." ++ event_status.str)
    (.refund
      { refund_id := refund.id
        payment_id := payment.id
        merchant_order_no := payment.merchant_order_no
        status := refund.status.str
        refund_amount := refund.refund_amount
        provider_refund_id := refund.provider_refund_id
        refunded_at := refund.refunded_at
        reason := refund.reason
        currency := payment.currency.str })
    "/callback/refund" newDeliveryId now st

/-- Step 4 of `_process_payment_callback`: the WebhookDelivery is created
only when the mapped outcome is one of the three terminal statuses. -/
def paymentCallbackDeliver (payment' : Payment) (outcome : String)
    (newDeliveryId : Nat) (now : ℚ) (st3 : GatewayState) :
    Except DbError GatewayState :=
  match mapOutcomeToStatus outcome with
  | some .succeeded => createPaymentWebhookDelivery payment' .succeeded newDeliveryId now st3
  | some .failed => createPaymentWebhookDelivery payment' .failed newDeliveryId now st3
  | some .canceled => createPaymentWebhookDelivery payment' .canceled newDeliveryId now st3
  | _ => .ok st3

/-- `CallbackService._process_payment_callback`, entered with the located
payment, the event and the (already linked) callback row; ends with the
terminal commit of the transaction that began at `st0`. -/
def processPaymentCallback (payment : Payment) (ev : CallbackEvent) (cb : Callback)
    (now : ℚ) (newDeliveryId : Nat) (st0 st2 : GatewayState) :
    Except DbError Unit × GatewayState :=
  match paymentCallbackDeliver (applyPaymentUpdate ev now payment) ev.outcome
      newDeliveryId now (setPayment st2 (applyPaymentUpdate ev now payment)) with
  | .error e => (.error e, st0)
  | .ok st4 =>
    commitTx st0 (setCallback st4 { cb with status := .processed, processed_at := some now })

/-- The mutation `_process_refund_callback` applies to the located refund
row (lines 119-124): overwrite the status whenever the mapped outcome
differs, setting `refunded_at` on a transition to succeeded. -/
def applyRefundUpdate (ev : CallbackEvent) (now : ℚ) (refund : Refund) : Refund :=
  match mapRefundOutcome ev.outcome with
  | some s =>
    if s ≠ refund.status then
      { refund with
        status := s
        refunded_at :=
          if s = .succeeded && !refund.refunded_at.isSome then some now
          else refund.refunded_at }
    else refund
  | none => refund

/-- Backfill of `provider_refund_id` (lines 126-127). -/
def backfillProviderRefundId (prid : String) (r : Refund) : Refund :=
  if !pyTruthy r.provider_refund_id then { r with provider_refund_id := some prid }
  else r

/-- Refund lookup filter of `_process_refund_callback`: by
`provider_refund_id` from the raw payload, narrowed by provider when the
raw provider value parses. -/
def refundLookupFilter (ev : CallbackEvent) (r : Refund) : Bool :=
  r.provider_refund_id == some (ev.raw_payload.data_object_id.getD "") &&
    (match (if pyTruthy ev.raw_payload.provider then
        Provider.ofString (ev.raw_payload.provider.getD "") else none) with
      | some pv => r.provider == pv
      | none => true)

/-- Step 5 of `_process_refund_callback`: the WebhookDelivery is created
whenever the outcome mapped to a status. -/
def refundCallbackDeliver (payment : Payment) (refund2 : Refund) (outcome : String)
    (newDeliveryId : Nat) (now : ℚ) (st4 : GatewayState) :
    Except DbError GatewayState :=
  match mapRefundOutcome outcome with
  | some s => createRefundWebhookDelivery payment refund2 s newDeliveryId now st4
  | none => .ok st4

/-- Tail of `_process_refund_callback` once the refund row is located:
link the callback, advance the refund, enqueue the delivery, finalize. -/
def refundCallbackFound (payment : Payment) (ev : CallbackEvent) (cb : Callback)
    (refund : Refund) (now : ℚ) (newDeliveryId : Nat) (st0 st2 : GatewayState) :
    Except DbError Unit × GatewayState :=
  match refundCallbackDeliver payment
      (backfillProviderRefundId (ev.raw_payload.data_object_id.getD "")
        (applyRefundUpdate ev now refund))
      ev.outcome newDeliveryId now
      (setRefund (setCallback st2 { cb with payment_id := some refund.payment_id })
        (backfillProviderRefundId (ev.raw_payload.data_object_id.getD "")
          (applyRefundUpdate ev now refund))) with
  | .error e => (.error e, st0)
  | .ok st5 =>
    commitTx st0 (setCallback st5
      { cb with payment_id := some refund.payment_id, status := .processed,
                processed_at := some now })

/-- `CallbackService._process_refund_callback`. -/
def processRefundCallback (payment : Payment) (ev : CallbackEvent) (cb : Callback)
    (now : ℚ) (newDeliveryId : Nat) (st0 st2 : GatewayState) :
    Except DbError Unit × GatewayState :=
  if !pyTruthy ev.raw_payload.data_object_id then
    commitTx st0 (setCallback st2 { cb with status := .failed })
  else
    match scalarOneOrNone (st2.refunds.filter (refundLookupFilter ev)) with
    | .error e => (.error e, st0)
    | .ok none =>
      commitTx st0 (setCallback st2 { cb with status := .failed })
    | .ok (some refund) =>
      refundCallbackFound payment ev cb refund now newDeliveryId st0 st2

/-- `CallbackService.process_callback`: upsert the inbox row, locate the
payment, branch on `outcome.startswith("refund_")`. A raised database
error aborts the request and rolls the transaction back to `st0`. -/
def processCallback (ev : CallbackEvent) (now : ℚ)
    (newCallbackId newDeliveryId : Nat) (st0 : GatewayState) :
    Except DbError Unit × GatewayState :=
  match upsertCallback ev newCallbackId st0 with
  | .error e => (.error e, st0)
  | .ok (callback, st1) =>
    match findPayment st1 ev with
    | .error e => (.error e, st0)
    | .ok none =>
      commitTx st0 (setCallback st1 { callback with status := .failed })
    | .ok (some payment) =>
      if strStartsWith ev.outcome "refund_" then
        processRefundCallback payment ev { callback with payment_id := some payment.id }
          now newDeliveryId st0
          (setCallback st1 { callback with payment_id := some payment.id })
      else
        processPaymentCallback payment ev { callback with payment_id := some payment.id }
          now newDeliveryId st0
          (setCallback st1 { callback with payment_id := some payment.id })

/-- Result of `stripe_adapter.create_refund` as consumed by
`RefundService.create_refund`: the `refund_id` and `status` fields, or a
raised exception. -/
inductive StripeRefundResult
  | ok (refund_id : String) (status : String)
  | raised
deriving Repr, DecidableEq

/-- Result of `stripe_adapter.get_refund` as consumed by
`sync_refund_status`. -/
inductive StripeGetRefundResult
  | ok (status : String)
  | raised
deriving Repr, DecidableEq

/-- SQL `SUM(refund_amount) WHERE payment_id = pid AND status IN
(pending, succeeded)` with `scalar() or 0`. -/
def sumActiveRefunds (refunds : List Refund) (pid : Nat) : Int :=
  ((refunds.filter (fun r => r.payment_id == pid &&
      (r.status == RefundStatus.pending || r.status == RefundStatus.succeeded))).map
    (fun r => r.refund_amount)).sum

/-- Stripe refund-status mapping of `create_refund` step 5. -/
def mapStripeRefundStatus (s : String) : RefundStatus :=
  if s == "succeeded" then RefundStatus.succeeded
  else if s == "failed" then RefundStatus.failed
  else RefundStatus.pending

/-- The Refund row inserted by `create_refund` step 6. -/
def newRefundOf (payment : Payment) (eff : Int) (reason : Option String)
    (rid s : String) (newId : Nat) (now : ℚ) : Refund :=
  { id := newId
    payment_id := payment.id
    refund_amount := eff
    reason := reason
    status := mapStripeRefundStatus s
    provider := payment.provider
    provider_refund_id := some rid
    refunded_at := if mapStripeRefundStatus s = .succeeded then some now else none }

/-- Steps 4-6 of `RefundService.create_refund` once the payment is loaded,
succeeded, and the effective refund amount resolved. -/
def createRefundChecked (payment : Payment) (eff : Int) (reason : Option String)
    (adapter : StripeRefundResult) (newId : Nat) (now : ℚ) (st : GatewayState) :
    Except ServiceError Refund × GatewayState :=
  if sumActiveRefunds st.refunds payment.id + eff > payment.amount then
    (.error (.badRequest 4003), st)
  else
    match payment.provider with
    | .alipay => (.error (.serviceUnavailable 5031), st)
    | .wechatpay => (.error (.serviceUnavailable 5032), st)
    | .stripe =>
      match adapter with
      | .raised => (.error (.internalServer 5001), st)
      | .ok rid s =>
        if stateChecksOk { st with refunds :=
            st.refunds ++ [newRefundOf payment eff reason rid s newId now] } then
          (.ok (newRefundOf payment eff reason rid s newId now),
            { st with refunds := st.refunds ++ [newRefundOf payment eff reason rid s newId now] })
        else (.error (.dbError .integrityError), st)

/-- `RefundService.create_refund`. -/
def createRefund (req : CreateRefundRequest) (adapter : StripeRefundResult)
    (newId : Nat) (now : ℚ) (st : GatewayState) :
    Except ServiceError Refund × GatewayState :=
  match scalarOneOrNone (st.payments.filter (fun p => p.id == req.payment_id)) with
  | .error e => (.error (.dbError e), st)
  | .ok none => (.error (.notFound 4043), st)
  | .ok (some payment) =>
    if payment.status ≠ .succeeded then (.error (.badRequest 4001), st)
    else
      match req.refund_amount with
      | none => createRefundChecked payment payment.amount req.reason adapter newId now st
      | some amt =>
        if amt > payment.amount then (.error (.badRequest 4002), st)
        else createRefundChecked payment amt req.reason adapter newId now st

/-- Status update applied by `sync_refund_status` from the provider-side
refund state; note `refunded_at` is set unconditionally on "succeeded". -/
def applySyncUpdate (s : String) (now : ℚ) (refund : Refund) : Refund :=
  if s == "succeeded" then { refund with status := .succeeded, refunded_at := some now }
  else if s == "failed" then { refund with status := .failed }
  else if s == "canceled" then { refund with status := .canceled }
  else refund

/-- `RefundService.sync_refund_status`. A commit failure inside the `try`
block is swallowed into InternalServerException 5002. -/
def syncRefundStatus (refund_id : Nat) (adapter : StripeGetRefundResult) (now : ℚ)
    (st : GatewayState) : Except ServiceError Refund × GatewayState :=
  match scalarOneOrNone (st.refunds.filter (fun r => r.id == refund_id)) with
  | .error e => (.error (.dbError e), st)
  | .ok none => (.error (.notFound 4045), st)
  | .ok (some refund) =>
    if refund.status == RefundStatus.succeeded || refund.status == RefundStatus.failed
        || refund.status == RefundStatus.canceled then
      (.ok refund, st)
    else if !pyTruthy refund.provider_refund_id then
      (.error (.badRequest 4005), st)
    else
      match refund.provider with
      | .stripe =>
        match adapter with
        | .raised => (.error (.internalServer 5002), st)
        | .ok s =>
          if (applySyncUpdate s now refund).status ≠ refund.status then
            if stateChecksOk (setRefund st (applySyncUpdate s now refund)) then
              (.ok (applySyncUpdate s now refund), setRefund st (applySyncUpdate s now refund))
            else (.error (.internalServer 5002), st)
          else (.ok refund, st)
      | _ => (.error (.serviceUnavailable 5033), st)

/-- Outcome of the HTTP POST in `WebhookDeliveryWorker.deliver_webhook`. -/
inductive HttpResult
  | response (status_code : Nat) (text : String)
  | requestError (msg : String)
  | otherError (msg : String)
deriving Repr, DecidableEq

/-- Truncation `[:200]` applied to response text and error strings. -/
def truncate200 (s : String) : String := s.take 200

/-- `WebhookDeliveryWorker.schedule_retry`: dead-letter at the retry cap,
otherwise exponential backoff `2^attempt_count` plus a jitter drawn from
`uniform(0, 0.2 * 2^attempt_count)` (the jitter is passed in here). -/
def scheduleRetry (max_retries : Nat) (d : WebhookDelivery) (now jitter : ℚ) :
    WebhookDelivery :=
  if d.attempt_count ≥ max_retries then
    { d with status := .dead, next_attempt_at := none }
  else
    { d with
      status := .failed
      next_attempt_at := some (now + ((2 : ℚ) ^ d.attempt_count + jitter)) }

/-- `WebhookDeliveryWorker.deliver_webhook` for one row: mark processing and
bump `attempt_count`, POST, then either record success or schedule a retry.
`tAttempt` is the clock at the attempt mark, `tDone` at the response. -/
def deliverWebhook (max_retries : Nat) (d : WebhookDelivery) (tAttempt tDone : ℚ)
    (res : HttpResult) (jitter : ℚ) : WebhookDelivery :=
  let d1 := { d with
    status := DeliveryStatus.processing
    attempt_count := d.attempt_count + 1
    last_attempt_at := some tAttempt }
  match res with
  | .response c text =>
    let d2 := { d1 with last_http_status := some c }
    if 200 ≤ c && c < 300 then
      { d2 with status := .succeeded, delivered_at := some tDone, next_attempt_at := none }
    else
      scheduleRetry max_retries
        { d2 with last_error := some ("HTTP " ++ toString c ++ ": " ++ truncate200 text) }
        tDone jitter
  | .requestError m =>
    scheduleRetry max_retries
      { d1 with last_http_status := none, last_error := some ("RequestError: " ++ truncate200 m) }
      tDone jitter
  | .otherError m =>
    scheduleRetry max_retries
      { d1 with last_http_status := none, last_error := some ("Exception: " ++ truncate200 m) }
      tDone jitter

/-- A delivery attempt outcome that is treated as a failure (non-2xx
response, transport error, or other exception). -/
def isFailureResult : HttpResult → Bool
  | .response c _ => !(200 ≤ c && c < 300)
  | .requestError _ => true
  | .otherError _ => true

/-- Status/timestamp coupling of one payment row. -/
def paymentCoupled (p : Payment) : Bool :=
  (p.status == PaymentStatus.succeeded) == p.paid_at.isSome

/-- Status/timestamp coupling of one refund row. -/
def refundCoupled (r : Refund) : Bool :=
  (r.status == RefundStatus.succeeded) == r.refunded_at.isSome

/-- Coupling invariant over the state. -/
def couplingOk (st : GatewayState) : Bool :=
  st.payments.all paymentCoupled && st.refunds.all refundCoupled

/-- Refund-cap invariant over the state. -/
def capOk (st : GatewayState) : Bool :=
  st.payments.all (fun p => decide (sumActiveRefunds st.refunds p.id ≤ p.amount))

/-! ### Concrete scenario fixtures used by the claim theorems -/

/-- An empty database. -/
def emptyState : GatewayState :=
  { apps := [], payments := [], callbacks := [], refunds := [], deliveries := [] }

/-- A canceled (terminal) payment. -/
def payC1 : Payment :=
  { id := 5, app_id := 1, merchant_order_no := "o-1", provider := .stripe,
    amount := 100, currency := .USD, status := .canceled, provider_txn_id := none,
    notify_url := some "https://m.example", paid_at := none }

/-- State holding only the canceled payment. -/
def stC1 : GatewayState := { emptyState with payments := [payC1] }

/-- A provider event reporting failure for that order. -/
def evC1 : CallbackEvent :=
  { provider_event_id := "e9", provider_txn_id := none,
    merchant_order_no := some "o-1", outcome := "failed",
    raw_payload := { provider := some "stripe", data_object_id := none } }

/-- A succeeded payment that was already advanced by callback `evt_1`. -/
def payC3 : Payment :=
  { id := 10, app_id := 1, merchant_order_no := "ord-1", provider := .stripe,
    amount := 2000, currency := .USD, status := .succeeded,
    provider_txn_id := some "pi_abc", notify_url := none, paid_at := some 50 }

/-- The already-processed inbox row for `evt_1`. -/
def cbC3 : Callback :=
  { id := 20, provider := some "stripe", provider_event_id := "evt_1",
    provider_txn_id := some "pi_abc", payment_id := some 10,
    payload := { provider := some "stripe", data_object_id := none },
    status := .processed, processed_at := some 60 }

/-- Payload snapshot an outbound delivery for `payC3` carries. -/
def plC3 : DeliveryPayload :=
  { event_id := "10_succeeded", event_type := "payment.succeeded",
    body := .payment
      { payment_id := 10, merchant_order_no := "ord-1", status := "succeeded",
        amount := 2000, currency := "USD", provider_txn_id := some "pi_abc",
        paid_at := some 50 } }

/-- The outbound delivery created by the first processing of `evt_1`,
already delivered successfully. -/
def delC3 : WebhookDelivery :=
  { id := 30, app_id := 1, payment_id := some 10, event_id := "10_succeeded",
    event_type := "payment.succeeded",
    notify_url := "https://m.example/hook/callback/payment", payload := plC3,
    status := .succeeded, attempt_count := 1, next_attempt_at := none,
    last_attempt_at := some 61, last_http_status := some 200, last_error := none,
    delivered_at := some 61 }

/-- State after the first processing of `evt_1`, parametrized by the stored
delivery row so the replay effect is visible for any prior delivery state. -/
def stC3 (d : WebhookDelivery) : GatewayState :=
  { apps := [{ id := 1, notify_url := some "https://m.example/hook" }],
    payments := [payC3], callbacks := [cbC3], refunds := [], deliveries := [d] }

/-- A replay of the provider event `evt_1`. -/
def evC3 : CallbackEvent :=
  { provider_event_id := "evt_1", provider_txn_id := some "pi_abc",
    merchant_order_no := some "ord-1", outcome := "succeeded",
    raw_payload := { provider := some "stripe", data_object_id := none } }

/-- App fixture for the create-race scenario. -/
def appC4 : App := { id := 1, notify_url := none }

/-- Create request for the create-race scenario. -/
def reqC4 : CreatePaymentRequest :=
  { merchant_order_no := "ord-1", provider := .stripe, unit_amount := some 1000,
    quantity := 2, currency := .USD, notify_url := none }

/-- The row the concurrent winner committed between SELECT and flush. -/
def winnerC4 : Payment :=
  { id := 7, app_id := 1, merchant_order_no := "ord-1", provider := .stripe,
    amount := 2000, currency := .USD, status := .pending, provider_txn_id := none,
    notify_url := none, paid_at := none }

/-- Flush-time state containing the winner's row. -/
def stFlushC4 : GatewayState := { emptyState with payments := [winnerC4] }

/-- Stored payment for the idempotency scenario. -/
def payC5 : Payment :=
  { id := 9, app_id := 1, merchant_order_no := "ord-5", provider := .stripe,
    amount := 2000, currency := .USD, status := .pending, provider_txn_id := none,
    notify_url := none, paid_at := none }

/-- State holding the stored payment of the idempotency scenario. -/
def stC5 : GatewayState := { emptyState with payments := [payC5] }

/-- Matching re-create request for the idempotency scenario. -/
def reqC5 : CreatePaymentRequest :=
  { merchant_order_no := "ord-5", provider := .stripe, unit_amount := some 1000,
    quantity := 2, currency := .USD, notify_url := none }

/-- A succeeded payment of 1000 minor units for the refund-cap scenario. -/
def payC6 : Payment :=
  { id := 40, app_id := 1, merchant_order_no := "r-1", provider := .stripe,
    amount := 1000, currency := .USD, status := .succeeded,
    provider_txn_id := some "pi_r", notify_url := none, paid_at := some 10 }

/-- An existing succeeded refund of 600 against `payC6`. -/
def refC6 : Refund :=
  { id := 41, payment_id := 40, refund_amount := 600, reason := none,
    status := .succeeded, provider := .stripe, provider_refund_id := some "re_1",
    refunded_at := some 20 }

/-- State for the refund-cap scenario (600 of 1000 already refunded). -/
def stC6 : GatewayState := { emptyState with payments := [payC6], refunds := [refC6] }

/-- Refund request for 500 more, which would exceed the cap. -/
def reqC6 : CreateRefundRequest :=
  { payment_id := 40, refund_amount := some 500, reason := none }

/-- Delivery row fixture for the retry-schedule scenario. -/
def dW7 : WebhookDelivery :=
  { id := 70, app_id := 1, payment_id := some 10, event_id := "10_succeeded",
    event_type := "payment.succeeded", notify_url := "https://m.example/hook",
    payload := plC3, status := .processing, attempt_count := 3,
    next_attempt_at := none, last_attempt_at := some 100, last_http_status := none,
    last_error := none, delivered_at := none }

/-- Payment fixture for the delivery-upsert scenario. -/
def payC8 : Payment :=
  { id := 80, app_id := 2, merchant_order_no := "u-1", provider := .stripe,
    amount := 300, currency := .USD, status := .succeeded,
    provider_txn_id := some "pi_u", notify_url := none, paid_at := some 5 }

/-- State for the delivery-upsert scenario: the app resolves the URL. -/
def stC8 : GatewayState :=
  { emptyState with
    apps := [{ id := 2, notify_url := some "https://merchant.example/" }]
    payments := [payC8] }

/-- Variant of `payC8` with no notify URL of its own and an app id that
matches no stored app, so no URL resolves. -/
def payC8n : Payment := { payC8 with notify_url := none, app_id := 99 }

/-- Webhook body fixture for the delivery-upsert witness. -/
def bodyC8 : WebhookBody :=
  .payment
    { payment_id := 80, merchant_order_no := "u-1", status := "succeeded",
      amount := 300, currency := "USD", provider_txn_id := some "pi_u",
      paid_at := some 5 }

/-- Create request with `unit_amount` absent (`req.unit_amount or 0`). -/
def reqC9 : CreatePaymentRequest :=
  { merchant_order_no := "z-1", provider := .stripe, unit_amount := none,
    quantity := 1, currency := .USD, notify_url := none }

/-- State with two payments in different apps sharing `merchant_order_no`;
payment 11 belongs to app 1 and provider stripe, payment 12 to app 2 and
provider alipay. -/
def stC10 : GatewayState :=
  { apps := [{ id := 1, notify_url := some "https://a.example" },
             { id := 2, notify_url := some "https://b.example" }],
    payments :=
      [{ id := 11, app_id := 1, merchant_order_no := "dup-1", provider := .stripe,
         amount := 500, currency := .USD, status := .pending,
         provider_txn_id := some "T", notify_url := none, paid_at := none },
       { id := 12, app_id := 2, merchant_order_no := "dup-1", provider := .alipay,
         amount := 700, currency := .USD, status := .pending,
         provider_txn_id := none, notify_url := none, paid_at := none }],
    callbacks := [], refunds := [], deliveries := [] }

/-- A success event issued by alipay (raw provider "alipay") that carries no
order number and the provider transaction id of the stripe payment. -/
def evC10 : CallbackEvent :=
  { provider_event_id := "ae_1", provider_txn_id := some "T",
    merchant_order_no := none, outcome := "succeeded",
    raw_payload := { provider := some "alipay", data_object_id := none } }

/-- Pending payment used by the coupling witness. -/
def payW2 : Payment :=
  { id := 60, app_id := 1, merchant_order_no := "w-1", provider := .stripe,
    amount := 400, currency := .USD, status := .pending, provider_txn_id := none,
    notify_url := some "https://w.example", paid_at := none }

/-- State used by the coupling witness. -/
def stW2 : GatewayState := { emptyState with payments := [payW2] }

/-- Success event for the coupling witness. -/
def evW2 : CallbackEvent :=
  { provider_event_id := "w_evt", provider_txn_id := some "pi_w",
    merchant_order_no := some "w-1", outcome := "succeeded",
    raw_payload := { provider := some "stripe", data_object_id := none } }

/-- Succeeded payment for the stickiness witness. -/
def payW1 : Payment :=
  { id := 61, app_id := 1, merchant_order_no := "s-1", provider := .stripe,
    amount := 700, currency := .USD, status := .succeeded,
    provider_txn_id := some "pi_s", notify_url := some "https://s.example",
    paid_at := some 9 }

/-- State for the stickiness witness. -/
def stW1 : GatewayState := { emptyState with payments := [payW1] }

/-- Failure event aimed at the succeeded payment of the stickiness witness. -/
def evW1 : CallbackEvent :=
  { provider_event_id := "s_evt", provider_txn_id := some "pi_s",
    merchant_order_no := some "s-1", outcome := "failed",
    raw_payload := { provider := some "stripe", data_object_id := none } }

/-! ### Structural lemmas about the embedding -/

lemma commitTx_cases (st0 s : GatewayState) :
    (stateChecksOk s = true ∧ commitTx st0 s = (.ok (), s)) ∨
    (stateChecksOk s = false ∧ commitTx st0 s = (.error .integrityError, st0)) := by
  by_cases h : stateChecksOk s = true
  · exact Or.inl ⟨h, by simp [commitTx, h]⟩
  · exact Or.inr ⟨by simpa using h, by simp [commitTx, h]⟩

lemma scalarOneOrNone_ok_some {α : Type} {l : List α} {a : α}
    (h : scalarOneOrNone l = .ok (some a)) : a ∈ l := by
  match l with
  | [] => simp [scalarOneOrNone] at h
  | [x] =>
    simp [scalarOneOrNone] at h
    simp [h]
  | x :: y :: rest => simp [scalarOneOrNone] at h

lemma stateChecksOk_payment {st : GatewayState} (h : stateChecksOk st = true)
    {p : Payment} (hp : p ∈ st.payments) : paymentCheckOk p = true := by
  have := (Bool.and_eq_true _ _).mp h
  exact List.all_eq_true.mp this.1 p hp

lemma stateChecksOk_refund {st : GatewayState} (h : stateChecksOk st = true)
    {r : Refund} (hr : r ∈ st.refunds) : refundCheckOk r = true := by
  have := (Bool.and_eq_true _ _).mp h
  exact List.all_eq_true.mp this.2 r hr

lemma paymentCheckOk_coupled {p : Payment} (h : paymentCheckOk p = true) :
    paymentCoupled p = true := by
  rcases p with ⟨_, _, _, _, _, _, s, _, _, t⟩
  cases s <;> cases t <;> simp_all [paymentCheckOk, paymentCoupled]

lemma refundCheckOk_coupled {r : Refund} (h : refundCheckOk r = true) :
    refundCoupled r = true := by
  rcases r with ⟨_, _, _, _, s, _, _, t⟩
  cases s <;> cases t <;> simp_all [refundCheckOk, refundCoupled]

lemma stateChecksOk_coupling {st : GatewayState} (h : stateChecksOk st = true) :
    couplingOk st = true := by
  have h' := (Bool.and_eq_true _ _).mp h
  refine (Bool.and_eq_true _ _).mpr ⟨List.all_eq_true.mpr ?_, List.all_eq_true.mpr ?_⟩
  · exact fun p hp => paymentCheckOk_coupled (List.all_eq_true.mp h'.1 p hp)
  · exact fun r hr => refundCheckOk_coupled (List.all_eq_true.mp h'.2 r hr)

lemma couplingOk_payment {st : GatewayState} (h : couplingOk st = true)
    {p : Payment} (hp : p ∈ st.payments) : paymentCoupled p = true := by
  have := (Bool.and_eq_true _ _).mp h
  exact List.all_eq_true.mp this.1 p hp

lemma setCallback_payments (st : GatewayState) (c : Callback) :
    (setCallback st c).payments = st.payments := rfl

lemma setCallback_refunds (st : GatewayState) (c : Callback) :
    (setCallback st c).refunds = st.refunds := rfl

lemma setRefund_payments (st : GatewayState) (r : Refund) :
    (setRefund st r).payments = st.payments := rfl

lemma setDelivery_payments (st : GatewayState) (d : WebhookDelivery) :
    (setDelivery st d).payments = st.payments := rfl

lemma setDelivery_refunds (st : GatewayState) (d : WebhookDelivery) :
    (setDelivery st d).refunds = st.refunds := rfl

lemma createWebhookDelivery_ok {payment : Payment} {eid ety : String}
    {body : WebhookBody} {sfx : String} {did : Nat} {now : ℚ}
    {st st' : GatewayState}
    (h : createWebhookDelivery payment eid ety body sfx did now st = .ok st') :
    st'.payments = st.payments ∧ st'.refunds = st.refunds := by
  unfold createWebhookDelivery at h
  split at h
  · exact absurd h (by simp)
  · split at h
    · rw [Except.ok.injEq] at h
      subst h
      exact ⟨rfl, rfl⟩
    · split at h
      · exact absurd h (by simp)
      · rw [Except.ok.injEq] at h
        subst h
        exact ⟨rfl, rfl⟩
      · rw [Except.ok.injEq] at h
        subst h
        exact ⟨rfl, rfl⟩

lemma createPaymentWebhookDelivery_ok {payment : Payment} {s : PaymentStatus}
    {did : Nat} {now : ℚ} {st st' : GatewayState}
    (h : createPaymentWebhookDelivery payment s did now st = .ok st') :
    st'.payments = st.payments ∧ st'.refunds = st.refunds :=
  createWebhookDelivery_ok h

lemma createRefundWebhookDelivery_ok {payment : Payment} {r : Refund}
    {s : RefundStatus} {did : Nat} {now : ℚ} {st st' : GatewayState}
    (h : createRefundWebhookDelivery payment r s did now st = .ok st') :
    st'.payments = st.payments ∧ st'.refunds = st.refunds :=
  createWebhookDelivery_ok h

lemma paymentCallbackDeliver_ok {p' : Payment} {outcome : String} {did : Nat}
    {now : ℚ} {st st' : GatewayState}
    (h : paymentCallbackDeliver p' outcome did now st = .ok st') :
    st'.payments = st.payments ∧ st'.refunds = st.refunds := by
  unfold paymentCallbackDeliver at h
  split at h <;>
    first
      | exact createPaymentWebhookDelivery_ok h
      | · rw [Except.ok.injEq] at h
          subst h
          exact ⟨rfl, rfl⟩

lemma refundCallbackDeliver_ok {payment : Payment} {r2 : Refund} {outcome : String}
    {did : Nat} {now : ℚ} {st st' : GatewayState}
    (h : refundCallbackDeliver payment r2 outcome did now st = .ok st') :
    st'.payments = st.payments ∧ st'.refunds = st.refunds := by
  unfold refundCallbackDeliver at h
  split at h
  · exact createRefundWebhookDelivery_ok h
  · rw [Except.ok.injEq] at h
    subst h
    exact ⟨rfl, rfl⟩

lemma upsertCallback_ok {ev : CallbackEvent} {cid : Nat} {st0 : GatewayState}
    {cb : Callback} {st1 : GatewayState}
    (h : upsertCallback ev cid st0 = .ok (cb, st1)) :
    st1.payments = st0.payments ∧ st1.refunds = st0.refunds := by
  unfold upsertCallback at h
  split at h
  · split at h
    · exact absurd h (by simp)
    · rw [Except.ok.injEq, Prod.mk.injEq] at h
      obtain ⟨-, h2⟩ := h
      subst h2
      exact ⟨rfl, rfl⟩
  · rw [Except.ok.injEq, Prod.mk.injEq] at h
    obtain ⟨-, h2⟩ := h
    subst h2
    exact ⟨rfl, rfl⟩

lemma findPaymentByTxn_ok_some {st : GatewayState} {ev : CallbackEvent} {q : Payment}
    (h : findPaymentByTxn st ev = .ok (some q)) : q ∈ st.payments := by
  unfold findPaymentByTxn at h
  split at h
  · exact List.mem_of_mem_filter (scalarOneOrNone_ok_some h)
  · exact absurd h (by simp)

lemma findPayment_ok_some {st : GatewayState} {ev : CallbackEvent} {q : Payment}
    (h : findPayment st ev = .ok (some q)) : q ∈ st.payments := by
  unfold findPayment at h
  split at h
  · split at h
    · exact absurd h (by simp)
    · rename_i p hp
      rw [Except.ok.injEq, Option.some.injEq] at h
      subst h
      exact List.mem_of_mem_filter (scalarOneOrNone_ok_some hp)
    · exact findPaymentByTxn_ok_some h
  · exact findPaymentByTxn_ok_some h

/-- Every exit of the payment-callback branch either rolls back to `st0` or
commits a state whose payments are exactly `st2`'s with the located row
rewritten by `applyPaymentUpdate` (and whose CHECK constraints hold). -/
lemma processPaymentCallback_shape (payment : Payment) (ev : CallbackEvent)
    (cb : Callback) (now : ℚ) (did : Nat) (st0 st2 : GatewayState) :
    (processPaymentCallback payment ev cb now did st0 st2).2 = st0 ∨
    (stateChecksOk (processPaymentCallback payment ev cb now did st0 st2).2 = true ∧
      (processPaymentCallback payment ev cb now did st0 st2).2.payments =
        setPaymentIn st2.payments (applyPaymentUpdate ev now payment)) := by
  unfold processPaymentCallback
  split
  · left
    rfl
  · rename_i st4 heq
    have h4 := paymentCallbackDeliver_ok heq
    rcases commitTx_cases st0
        (setCallback st4 { cb with status := .processed, processed_at := some now }) with
      ⟨hc, hcq⟩ | ⟨hc, hcq⟩
    · right
      rw [hcq]
      refine ⟨hc, ?_⟩
      rw [setCallback_payments, h4.1]
      rfl
    · left
      rw [hcq]

/-- Every exit of the located-refund branch either rolls back to `st0` or
commits a state with unchanged payments whose CHECK constraints hold. -/
lemma refundCallbackFound_shape (payment : Payment) (ev : CallbackEvent)
    (cb : Callback) (refund : Refund) (now : ℚ) (did : Nat) (st0 st2 : GatewayState) :
    (refundCallbackFound payment ev cb refund now did st0 st2).2 = st0 ∨
    (stateChecksOk (refundCallbackFound payment ev cb refund now did st0 st2).2 = true ∧
      (refundCallbackFound payment ev cb refund now did st0 st2).2.payments = st2.payments) := by
  unfold refundCallbackFound
  split
  · left
    rfl
  · rename_i st5 heq
    have h5 := refundCallbackDeliver_ok heq
    rcases commitTx_cases st0
        (setCallback st5
          { cb with
            payment_id := some refund.payment_id
            status := .processed
            processed_at := some now }) with
      ⟨hc, hcq⟩ | ⟨hc, hcq⟩
    · right
      rw [hcq]
      refine ⟨hc, ?_⟩
      rw [setCallback_payments, h5.1]
      rfl
    · left
      rw [hcq]

/-- Every exit of the refund-callback branch either rolls back to `st0` or
commits a state with unchanged payments whose CHECK constraints hold. -/
lemma processRefundCallback_shape (payment : Payment) (ev : CallbackEvent)
    (cb : Callback) (now : ℚ) (did : Nat) (st0 st2 : GatewayState) :
    (processRefundCallback payment ev cb now did st0 st2).2 = st0 ∨
    (stateChecksOk (processRefundCallback payment ev cb now did st0 st2).2 = true ∧
      (processRefundCallback payment ev cb now did st0 st2).2.payments = st2.payments) := by
  unfold processRefundCallback
  split
  · rcases commitTx_cases st0 (setCallback st2 { cb with status := .failed }) with
      ⟨hc, hcq⟩ | ⟨hc, hcq⟩
    · right
      rw [hcq]
      exact ⟨hc, rfl⟩
    · left
      rw [hcq]
  · split
    · left
      rfl
    · rcases commitTx_cases st0 (setCallback st2 { cb with status := .failed }) with
        ⟨hc, hcq⟩ | ⟨hc, hcq⟩
      · right
        rw [hcq]
        exact ⟨hc, rfl⟩
      · left
        rw [hcq]
    · exact refundCallbackFound_shape payment ev cb _ now did st0 st2

/-- Every exit of `process_callback` either rolls back to `st0` or commits a
state satisfying the CHECK constraints, whose payments are either untouched
or a single located row rewritten by `applyPaymentUpdate`. -/
lemma processCallback_shape (ev : CallbackEvent) (now : ℚ) (cid did : Nat)
    (st0 : GatewayState) :
    (processCallback ev now cid did st0).2 = st0 ∨
    (stateChecksOk (processCallback ev now cid did st0).2 = true ∧
      ((processCallback ev now cid did st0).2.payments = st0.payments ∨
        ∃ q, q ∈ st0.payments ∧
          (processCallback ev now cid did st0).2.payments =
            setPaymentIn st0.payments (applyPaymentUpdate ev now q))) := by
  unfold processCallback
  split
  · left
    rfl
  · rename_i callback st1 hup
    have h1 := upsertCallback_ok hup
    split
    · left
      rfl
    · rcases commitTx_cases st0 (setCallback st1 { callback with status := .failed }) with
        ⟨hc, hcq⟩ | ⟨hc, hcq⟩
      · right
        rw [hcq]
        refine ⟨hc, Or.inl ?_⟩
        rw [setCallback_payments, h1.1]
      · left
        rw [hcq]
    · rename_i payment hfind
      have hq : payment ∈ st0.payments := by
        rw [← h1.1]
        exact findPayment_ok_some hfind
      split
      · rcases processRefundCallback_shape payment ev
            { callback with payment_id := some payment.id } now did st0
            (setCallback st1 { callback with payment_id := some payment.id }) with
          h | ⟨hc, hp⟩
        · exact Or.inl h
        · right
          refine ⟨hc, Or.inl ?_⟩
          rw [hp, setCallback_payments, h1.1]
      · rcases processPaymentCallback_shape payment ev
            { callback with payment_id := some payment.id } now did st0
            (setCallback st1 { callback with payment_id := some payment.id }) with
          h | ⟨hc, hp⟩
        · exact Or.inl h
        · right
          refine ⟨hc, Or.inr ⟨payment, hq, ?_⟩⟩
          rw [hp, setCallback_payments, h1.1]

lemma createOrGetPayment_coupling (app : App) (req : CreatePaymentRequest) (nid : Nat)
    (stSel stFlush : GatewayState) (h1 : couplingOk stSel = true)
    (h2 : couplingOk stFlush = true) :
    couplingOk (createOrGetPayment app req nid stSel stFlush).2 = true := by
  unfold createOrGetPayment
  split
  · exact h1
  · split
    · exact h1
    · exact h1
  · split
    · exact h2
    · have h2' := (Bool.and_eq_true _ _).mp h2
      simp only [couplingOk, List.all_append]
      exact (Bool.and_eq_true _ _).mpr
        ⟨(Bool.and_eq_true _ _).mpr ⟨h2'.1, rfl⟩, h2'.2⟩

lemma updatePaymentStatusTx_coupling (st : GatewayState) (payment : Payment)
    (ns : PaymentStatus) (txn : Option String) (now : ℚ)
    (h : couplingOk st = true) :
    couplingOk (updatePaymentStatusTx st payment ns txn now).2 = true := by
  unfold updatePaymentStatusTx
  rcases commitTx_cases st (setPayment st (updatePaymentStatus payment ns txn now)) with
    ⟨hc, hcq⟩ | ⟨hc, hcq⟩
  · rw [hcq]
    exact stateChecksOk_coupling hc
  · rw [hcq]
    exact h

lemma processCallback_coupling (ev : CallbackEvent) (now : ℚ) (cid did : Nat)
    (st0 : GatewayState) (h : couplingOk st0 = true) :
    couplingOk (processCallback ev now cid did st0).2 = true := by
  rcases processCallback_shape ev now cid did st0 with hq | ⟨hc, -⟩
  · rw [hq]
    exact h
  · exact stateChecksOk_coupling hc

lemma createRefundChecked_coupling (payment : Payment) (eff : Int)
    (reason : Option String) (adapter : StripeRefundResult) (nid : Nat) (now : ℚ)
    (st : GatewayState) (h : couplingOk st = true) :
    couplingOk (createRefundChecked payment eff reason adapter nid now st).2 = true := by
  unfold createRefundChecked
  split
  · exact h
  · split
    · exact h
    · exact h
    · split
      · exact h
      · split
        · rename_i hchk
          exact stateChecksOk_coupling hchk
        · exact h

lemma createRefund_coupling (req : CreateRefundRequest) (adapter : StripeRefundResult)
    (nid : Nat) (now : ℚ) (st : GatewayState) (h : couplingOk st = true) :
    couplingOk (createRefund req adapter nid now st).2 = true := by
  unfold createRefund
  split
  · exact h
  · exact h
  · split
    · exact h
    · split
      · exact createRefundChecked_coupling _ _ _ _ _ _ _ h
      · split
        · exact h
        · exact createRefundChecked_coupling _ _ _ _ _ _ _ h

lemma syncRefundStatus_coupling (rid : Nat) (adapter : StripeGetRefundResult)
    (now : ℚ) (st : GatewayState) (h : couplingOk st = true) :
    couplingOk (syncRefundStatus rid adapter now st).2 = true := by
  unfold syncRefundStatus
  split
  · exact h
  · exact h
  · split
    · exact h
    · split
      · exact h
      · split
        · split
          · exact h
          · split
            · split
              · rename_i hchk
                exact stateChecksOk_coupling hchk
              · exact h
            · exact h
        · exact h

lemma applyPaymentUpdate_id (ev : CallbackEvent) (now : ℚ) (q : Payment) :
    (applyPaymentUpdate ev now q).id = q.id := by
  unfold applyPaymentUpdate
  split
  · split
    · rfl
    · rfl
  · rfl

lemma applyPaymentUpdate_succeeded (ev : CallbackEvent) (now : ℚ) (p : Payment)
    (hst : p.status = .succeeded) (hpaid : p.paid_at.isSome = true)
    (hchk : paymentCheckOk (applyPaymentUpdate ev now p) = true) :
    applyPaymentUpdate ev now p = p := by
  obtain ⟨t, ht⟩ := Option.isSome_iff_exists.mp hpaid
  rcases hmap : mapOutcomeToStatus ev.outcome with - | s
  · simp [applyPaymentUpdate, hmap]
  · by_cases hne : s = p.status
    · simp [applyPaymentUpdate, hmap, hne]
    · exfalso
      rw [hst] at hne
      simp only [applyPaymentUpdate, hmap, hst] at hchk
      rw [if_pos (by simpa using hne)] at hchk
      cases s <;> simp_all [paymentCheckOk, ht]

lemma sumActiveRefunds_append (l : List Refund) (R : Refund) (pid : Nat) :
    sumActiveRefunds (l ++ [R]) pid =
      sumActiveRefunds l pid +
        (if R.payment_id == pid &&
            (R.status == RefundStatus.pending || R.status == RefundStatus.succeeded) then
          R.refund_amount else 0) := by
  unfold sumActiveRefunds
  rw [List.filter_append, List.map_append, List.sum_append]
  congr 1
  by_cases hR : (R.payment_id == pid &&
      (R.status == RefundStatus.pending || R.status == RefundStatus.succeeded)) = true
  · simp [List.filter, hR]
  · simp [List.filter, hR]

lemma createRefundChecked_cap (payment : Payment) (eff : Int) (reason : Option String)
    (adapter : StripeRefundResult) (nid : Nat) (now : ℚ) (st : GatewayState)
    (huniq : ∀ p' ∈ st.payments, p'.id = payment.id → p' = payment)
    (hcap : capOk st = true) :
    capOk (createRefundChecked payment eff reason adapter nid now st).2 = true := by
  unfold createRefundChecked
  split
  · exact hcap
  · rename_i hle
    split
    · exact hcap
    · exact hcap
    · split
      · exact hcap
      · rename_i rid s
        split
        · simp only [capOk, List.all_eq_true, decide_eq_true_eq] at hcap ⊢
          intro p' hp'
          rw [sumActiveRefunds_append]
          by_cases hid : payment.id = p'.id
          · have hp'eq : p' = payment := huniq p' hp' hid.symm
            subst hp'eq
            have hsum := hcap p' hp'
            by_cases hact : ((newRefundOf p' eff reason rid s nid now).payment_id == p'.id
                && ((newRefundOf p' eff reason rid s nid now).status == RefundStatus.pending
                  || (newRefundOf p' eff reason rid s nid now).status == RefundStatus.succeeded)) = true
            · rw [if_pos hact]
              have hamt : (newRefundOf p' eff reason rid s nid now).refund_amount = eff := rfl
              rw [hamt]
              omega
            · rw [if_neg (by simp [hact])]
              omega
          · rw [if_neg ?_]
            · have hsum := hcap p' hp'
              omega
            · have hf : ((newRefundOf payment eff reason rid s nid now).payment_id == p'.id) = false := by
                have : (newRefundOf payment eff reason rid s nid now).payment_id = payment.id := rfl
                rw [this]
                simpa using hid
              simp [hf]
        · exact hcap

/-! ### Claim theorems -/

/-- C1 (counterexample): a Payment in the terminal state `canceled` is
overwritten to `failed` by processing a callback with outcome "failed" —
the commit succeeds because `paid_at` is null — refuting that every
terminal status is left unchanged. -/
theorem canceled_payment_overwritten_by_failed_callback :
    stC1.payments.map (fun p => p.status) = [.canceled] ∧
    (processCallback evC1 50 90 91 stC1).1 = .ok () ∧
    (processCallback evC1 50 90 91 stC1).2.payments.map (fun p => p.status) = [.failed] := by
  refine ⟨rfl, ?_, ?_⟩ <;> rfl

/-- C1 (amended): only `succeeded` is sticky. A payment whose status is
`succeeded` keeps that status and its `paid_at` across any
`process_callback` — not by a service-layer guard but because any overwrite
would violate `ck_payments_paid_at_matches_status` and roll back — whereas
`failed`/`canceled` payments can change status (see the counterexample),
and `update_payment_status` overwrites the status unconditionally. -/
theorem succeeded_payment_status_sticky (ev : CallbackEvent) (now : ℚ)
    (cid did : Nat) (st0 : GatewayState) (p : Payment)
    (hcp : couplingOk st0 = true)
    (hids : (st0.payments.map (fun x => x.id)).Nodup)
    (hp : p ∈ st0.payments) (hst : p.status = .succeeded) :
    ∃ r, r ∈ (processCallback ev now cid did st0).2.payments ∧
      r.id = p.id ∧ r.status = .succeeded ∧ r.paid_at = p.paid_at := by
  have hpaid : p.paid_at.isSome = true := by
    have hc := couplingOk_payment hcp hp
    rw [paymentCoupled, hst] at hc
    simpa using hc
  rcases processCallback_shape ev now cid did st0 with hq | ⟨hchecks, hpay | ⟨q, hq, hpay⟩⟩
  · refine ⟨p, ?_, rfl, hst, rfl⟩
    rw [hq]
    exact hp
  · refine ⟨p, ?_, rfl, hst, rfl⟩
    rw [hpay]
    exact hp
  · by_cases hid : p.id = q.id
    · have hpq : p = q := List.inj_on_of_nodup_map hids hp hq hid
      rw [← hpq] at hpay
      have himg : applyPaymentUpdate ev now p ∈ (processCallback ev now cid did st0).2.payments := by
        rw [hpay, setPaymentIn]
        have hm := List.mem_map_of_mem
          (fun x => if x.id == (applyPaymentUpdate ev now p).id then
            applyPaymentUpdate ev now p else x) hp
        simpa [applyPaymentUpdate_id] using hm
      have hchk := stateChecksOk_payment hchecks himg
      have heqp := applyPaymentUpdate_succeeded ev now p hst hpaid hchk
      rw [heqp] at himg
      exact ⟨p, himg, rfl, hst, rfl⟩
    · refine ⟨p, ?_, rfl, hst, rfl⟩
      rw [hpay, setPaymentIn]
      have hm := List.mem_map_of_mem
        (fun x => if x.id == (applyPaymentUpdate ev now q).id then
          applyPaymentUpdate ev now q else x) hp
      simpa [applyPaymentUpdate_id, hid] using hm

/-- C1 (witness): the succeeded payment `payW1` keeps its status across a
"failed" callback. -/
theorem succeeded_payment_status_sticky_witness :
    couplingOk stW1 = true ∧ payW1 ∈ stW1.payments ∧ payW1.status = .succeeded ∧
    (∃ r, r ∈ (processCallback evW1 99 64 65 stW1).2.payments ∧
      r.id = payW1.id ∧ r.status = .succeeded ∧ r.paid_at = payW1.paid_at) :=
  ⟨by decide, by decide, rfl,
    succeeded_payment_status_sticky evW1 99 64 65 stW1 payW1
      (by decide) (by decide) (by decide) rfl⟩

/-- C2: the status/timestamp coupling (`succeeded ⇔ paid_at ≠ null`, ditto
for refunds) is preserved by every operation: payment creation, status
update plus commit, callback processing, refund creation and refund status
sync. The code relies on the DB CHECK constraints for the uphill cases:
transitions out of `succeeded` keep the timestamp, violate the constraint,
and roll back. -/
theorem status_timestamp_coupling_preserved (st : GatewayState)
    (h : couplingOk st = true) :
    (∀ app req nid stF, couplingOk stF = true →
      couplingOk (createOrGetPayment app req nid st stF).2 = true) ∧
    (∀ payment ns txn (now : ℚ),
      couplingOk (updatePaymentStatusTx st payment ns txn now).2 = true) ∧
    (∀ ev (now : ℚ) cid did, couplingOk (processCallback ev now cid did st).2 = true) ∧
    (∀ req adapter nid (now : ℚ),
      couplingOk (createRefund req adapter nid now st).2 = true) ∧
    (∀ rid adapter (now : ℚ),
      couplingOk (syncRefundStatus rid adapter now st).2 = true) :=
  ⟨fun app req nid stF hF => createOrGetPayment_coupling app req nid st stF h hF,
   fun payment ns txn now => updatePaymentStatusTx_coupling st payment ns txn now h,
   fun ev now cid did => processCallback_coupling ev now cid did st h,
   fun req adapter nid now => createRefund_coupling req adapter nid now st h,
   fun rid adapter now => syncRefundStatus_coupling rid adapter now st h⟩

/-- C2 (witness): coupling holds after processing a success callback on a
pending payment. -/
theorem status_timestamp_coupling_preserved_witness :
    couplingOk stW2 = true ∧
    couplingOk (processCallback evW2 7 62 63 stW2).2 = true :=
  ⟨by decide, (status_timestamp_coupling_preserved stW2 (by decide)).2.2.1 evW2 7 62 63⟩

/-- C3 (counterexample): replaying the already-processed callback `evt_1`
is not a no-op: the already-delivered WebhookDelivery row is re-queued
(status back to pending, attempt count and diagnostics cleared) and the
Callback row's `processed_at` is bumped to the replay time. -/
theorem processed_callback_replay_requeues_delivery :
    cbC3.status = .processed ∧
    (stC3 delC3).deliveries.map (fun x => (x.status, x.attempt_count, x.delivered_at)) =
      [(.succeeded, 1, some 61)] ∧
    (processCallback evC3 100 21 31 (stC3 delC3)).2.deliveries.map
      (fun x => (x.status, x.attempt_count, x.delivered_at)) = [(.pending, 0, none)] ∧
    (processCallback evC3 100 21 31 (stC3 delC3)).2.callbacks.map
      (fun c => c.processed_at) = [some 100] := by
  refine ⟨rfl, rfl, ?_, ?_⟩ <;> decide

/-- C3 (amended): replaying a callback whose inbox row is already
`processed` re-executes processing instead of short-circuiting: the located
payment is unchanged (its status already equals the mapped outcome), but
whatever state the `(app_id, event_id)` delivery row is in, it is re-queued
— reset to pending with `attempt_count = 0`, `next_attempt_at = now` and
cleared diagnostics — and the callback row's `processed_at` is overwritten
with the replay time. -/
theorem processed_callback_replay_reprocesses (d : WebhookDelivery) (now : ℚ)
    (h0 : d.id = 30) (h1 : d.app_id = 1) (h2 : d.event_id = "10_succeeded") :
    (processCallback evC3 now 21 31 (stC3 d)).1 = .ok () ∧
    (processCallback evC3 now 21 31 (stC3 d)).2.payments = [payC3] ∧
    (processCallback evC3 now 21 31 (stC3 d)).2.callbacks =
      [{ cbC3 with payment_id := some 10, status := .processed, processed_at := some now }] ∧
    (processCallback evC3 now 21 31 (stC3 d)).2.deliveries =
      [{ d with
         notify_url := "https://m.example/hook/callback/payment"
         payload := plC3
         status := .pending
         attempt_count := 0
         next_attempt_at := some now
         last_attempt_at := none
         last_http_status := none
         last_error := none
         delivered_at := none }] := by
  obtain ⟨did, dapp, dpay, deid, dety, dnu, dpl, dst, dcnt, dnext, dlast, dhttp, derr, ddel⟩ := d
  dsimp only at h0 h1 h2
  subst h0
  subst h1
  subst h2
  refine ⟨?_, ?_, ?_, ?_⟩ <;> with_unfolding_all rfl

/-- C3 (witness): the amended statement at the delivered row `delC3` and
replay time 100. -/
theorem processed_callback_replay_reprocesses_witness :
    delC3.id = 30 ∧ delC3.app_id = 1 ∧ delC3.event_id = "10_succeeded" ∧
    ((processCallback evC3 100 21 31 (stC3 delC3)).1 = .ok () ∧
    (processCallback evC3 100 21 31 (stC3 delC3)).2.payments = [payC3] ∧
    (processCallback evC3 100 21 31 (stC3 delC3)).2.callbacks =
      [{ cbC3 with payment_id := some 10, status := .processed, processed_at := some 100 }] ∧
    (processCallback evC3 100 21 31 (stC3 delC3)).2.deliveries =
      [{ delC3 with
         notify_url := "https://m.example/hook/callback/payment"
         payload := plC3
         status := .pending
         attempt_count := 0
         next_attempt_at := some 100
         last_attempt_at := none
         last_http_status := none
         last_error := none
         delivered_at := none }]) :=
  ⟨rfl, rfl, rfl, processed_callback_replay_reprocesses delC3 100 rfl rfl rfl⟩

/-- C4 (counterexample): when the SELECT sees nothing and the flush hits the
unique-constraint violation because the winner `winnerC4` committed in
between, the loser does not return the winner's row: it fails with
ConflictException 4092 ("concurrent create conflict, please retry"). -/
theorem create_race_loser_raises_conflict :
    (createOrGetPayment appC4 reqC4 8 emptyState stFlushC4).1 = .error .conflictRace ∧
    (createOrGetPayment appC4 reqC4 8 emptyState stFlushC4).1 ≠
      .ok (winnerC4, false) ∧
    (createOrGetPayment appC4 reqC4 8 emptyState stFlushC4).2 = stFlushC4 := by
  refine ⟨rfl, ?_, rfl⟩
  decide

/-- C4 (amended): the create-race loser observes the unique-constraint
violation and raises ConflictException 4092 and leaves no new row, rather
than re-reading and returning the winner. -/
theorem create_race_loser_conflict_4092 (app : App) (req : CreatePaymentRequest)
    (nid : Nat) (stSel stFlush : GatewayState)
    (hsel : stSel.payments.filter
      (fun p => p.app_id == app.id && p.merchant_order_no == req.merchant_order_no) = [])
    (hflush : stFlush.payments.any
      (fun p => p.app_id == app.id && p.merchant_order_no == req.merchant_order_no) = true) :
    createOrGetPayment app req nid stSel stFlush = (.error .conflictRace, stFlush) := by
  simp [createOrGetPayment, hsel, hflush, scalarOneOrNone]

/-- C4 (witness): the amended statement at the race fixture. -/
theorem create_race_loser_conflict_4092_witness :
    emptyState.payments.filter
      (fun p => p.app_id == appC4.id && p.merchant_order_no == reqC4.merchant_order_no) = [] ∧
    stFlushC4.payments.any
      (fun p => p.app_id == appC4.id && p.merchant_order_no == reqC4.merchant_order_no) = true ∧
    createOrGetPayment appC4 reqC4 8 emptyState stFlushC4 = (.error .conflictRace, stFlushC4) :=
  ⟨by decide, by decide,
    create_race_loser_conflict_4092 appC4 reqC4 8 emptyState stFlushC4 (by decide) (by decide)⟩

/-- C9 (counterexample): with `unit_amount` absent the service constructs
the Payment row with `amount = (req.unit_amount or 0) * req.quantity = 0`;
its insert then fails the `amount > 0` CHECK and surfaces as
ConflictException 4092 — refuting that the service never constructs a
Payment with amount 0. -/
theorem payment_amount_zero_constructed :
    (newPaymentOf appC4 reqC9 3).amount = 0 ∧
    (createOrGetPayment appC4 reqC9 3 emptyState emptyState).1 = .error .conflictRace := by
  exact ⟨rfl, rfl⟩

/-- C9 (amended): every successfully inserted Payment has `amount > 0`
(enforced by the CHECK constraint at flush) and `amount = (unit_amount or 0)
× quantity`, and the row is in the resulting state; but when `unit_amount`
is absent or zero, or `quantity` is zero, the service still constructs an
amount-0 Payment whose insert fails (see the counterexample). -/
theorem inserted_payment_amount_positive (app : App) (req : CreatePaymentRequest)
    (nid : Nat) (stSel stFlush : GatewayState) (p : Payment)
    (h : (createOrGetPayment app req nid stSel stFlush).1 = .ok (p, true)) :
    0 < p.amount ∧ p.amount = req.unit_amount.getD 0 * req.quantity ∧
      p ∈ (createOrGetPayment app req nid stSel stFlush).2.payments := by
  cases hsel : scalarOneOrNone (stSel.payments.filter
      (fun q => q.app_id == app.id && q.merchant_order_no == req.merchant_order_no)) with
  | error e => simp [createOrGetPayment, hsel] at h
  | ok o =>
    cases o with
    | some existing =>
      simp only [createOrGetPayment, hsel] at h
      split at h <;> simp at h
    | none =>
      simp only [createOrGetPayment, hsel] at h ⊢
      split at h
      · simp at h
      · rename_i hguard
        rw [Except.ok.injEq, Prod.mk.injEq] at h
        obtain ⟨h1, -⟩ := h
        subst h1
        rw [if_neg hguard]
        have hchk : paymentCheckOk (newPaymentOf app req nid) = true := by
          rcases Bool.or_eq_true _ _ |>.symm ▸ hguard with -
          by_cases hb : paymentCheckOk (newPaymentOf app req nid) = true
          · exact hb
          · exfalso
            apply hguard
            rw [Bool.or_eq_true]
            right
            simp [Bool.not_eq_true'] at hb ⊢
            exact hb
        refine ⟨?_, rfl, ?_⟩
        · have := (Bool.and_eq_true _ _).mp hchk
          exact of_decide_eq_true this.1
        · simp

/-- C9 (witness): the amended statement at a concrete successful create. -/
theorem inserted_payment_amount_positive_witness :
    (createOrGetPayment appC4 reqC4 8 emptyState emptyState).1 =
      .ok (newPaymentOf appC4 reqC4 8, true) ∧
    (0 < (newPaymentOf appC4 reqC4 8).amount ∧
      (newPaymentOf appC4 reqC4 8).amount =
        reqC4.unit_amount.getD 0 * reqC4.quantity ∧
      newPaymentOf appC4 reqC4 8 ∈
        (createOrGetPayment appC4 reqC4 8 emptyState emptyState).2.payments) :=
  ⟨by decide,
    inserted_payment_amount_positive appC4 reqC4 8 emptyState emptyState
      (newPaymentOf appC4 reqC4 8) (by decide)⟩

/-- C5: when a payment with the same `(app_id, merchant_order_no)` exists,
`create_or_get_payment` returns the stored row with `is_new = false` exactly
when `(unit_amount × quantity, currency, provider)` of the request match the
stored `(amount, currency, provider)`, and otherwise fails with
ConflictException 4091 carrying both sides; the state is unchanged in both
cases. -/
theorem create_or_get_idempotency (app : App) (req : CreatePaymentRequest)
    (existing : Payment) (u : Int) (nid : Nat) (st : GatewayState)
    (hu : req.unit_amount = some u)
    (hfilter : st.payments.filter
      (fun p => p.app_id == app.id && p.merchant_order_no == req.merchant_order_no) =
      [existing]) :
    ((u * req.quantity = existing.amount ∧ req.currency = existing.currency ∧
        req.provider = existing.provider) →
      createOrGetPayment app req nid st st = (.ok (existing, false), st)) ∧
    (¬ (u * req.quantity = existing.amount ∧ req.currency = existing.currency ∧
        req.provider = existing.provider) →
      createOrGetPayment app req nid st st =
        (.error (.conflictIdem
          { merchant_order_no := req.merchant_order_no
            existing_amount := existing.amount
            existing_currency := existing.currency
            existing_provider := existing.provider
            request_amount := u * req.quantity
            request_currency := req.currency
            request_provider := req.provider }), st)) := by
  have htot : reqTotalAmount req = u * req.quantity := by
    rw [reqTotalAmount, hu]
    rfl
  constructor
  · rintro ⟨h1, h2, h3⟩
    simp only [createOrGetPayment, hfilter, scalarOneOrNone]
    rw [if_neg]
    rw [htot]
    rintro (hc | hc | hc)
    · exact hc h1.symm
    · exact hc h2.symm
    · exact hc h3.symm
  · intro hne
    simp only [createOrGetPayment, hfilter, scalarOneOrNone]
    rw [if_pos, htot]
    rw [htot]
    by_contra hcon
    push_neg at hcon
    exact hne ⟨hcon.1.symm, hcon.2.1.symm, hcon.2.2.symm⟩

/-- C5 (witness): re-creating `payC5` with matching parameters returns the
stored row with `is_new = false`. -/
theorem create_or_get_idempotency_witness :
    reqC5.unit_amount = some 1000 ∧
    stC5.payments.filter
      (fun p => p.app_id == appC4.id && p.merchant_order_no == reqC5.merchant_order_no) =
      [payC5] ∧
    ((1000 : Int) * reqC5.quantity = payC5.amount ∧ reqC5.currency = payC5.currency ∧
      reqC5.provider = payC5.provider) ∧
    createOrGetPayment appC4 reqC5 99 stC5 stC5 = (.ok (payC5, false), stC5) :=
  ⟨rfl, by decide, by decide,
    (create_or_get_idempotency appC4 reqC5 payC5 1000 99 stC5 rfl (by decide)).1
      (by decide)⟩

/-- C7: after a failed delivery attempt the row is handed to
`schedule_retry` with the attempt count recorded for that attempt; at or
above `max_retries` the row is dead-lettered (`status = dead`,
`next_attempt_at = null`), otherwise it becomes `failed` with
`next_attempt_at − now ∈ [2^k, 1.2·2^k]` seconds for `k = attempt_count`,
given the jitter drawn from `uniform(0, 0.2·2^k)`. -/
theorem retry_schedule_and_dead_letter (max_retries : Nat) (d : WebhookDelivery)
    (now jitter : ℚ) (hj0 : 0 ≤ jitter)
    (hj1 : jitter ≤ (2 : ℚ) ^ d.attempt_count / 5) :
    (d.attempt_count ≥ max_retries →
      scheduleRetry max_retries d now jitter =
        { d with status := .dead, next_attempt_at := none }) ∧
    (d.attempt_count < max_retries →
      (scheduleRetry max_retries d now jitter).status = .failed ∧
      ∃ t, (scheduleRetry max_retries d now jitter).next_attempt_at = some t ∧
        (2 : ℚ) ^ d.attempt_count ≤ t - now ∧
        t - now ≤ 6 / 5 * (2 : ℚ) ^ d.attempt_count) ∧
    (∀ tA tD res (jitter2 : ℚ), isFailureResult res = true →
      ∃ d', deliverWebhook max_retries d tA tD res jitter2 =
          scheduleRetry max_retries d' tD jitter2 ∧
        d'.attempt_count = d.attempt_count + 1) := by
  refine ⟨?_, ?_, ?_⟩
  · intro h
    rw [scheduleRetry, if_pos h]
  · intro h
    rw [scheduleRetry, if_neg (Nat.not_le.mpr h)]
    refine ⟨rfl, now + ((2 : ℚ) ^ d.attempt_count + jitter), rfl, ?_, ?_⟩
    · have hr : now + ((2 : ℚ) ^ d.attempt_count + jitter) - now =
          (2 : ℚ) ^ d.attempt_count + jitter := by ring
      rw [hr]
      linarith
    · have hr : now + ((2 : ℚ) ^ d.attempt_count + jitter) - now =
          (2 : ℚ) ^ d.attempt_count + jitter := by ring
      rw [hr]
      linarith
  · intro tA tD res jitter2 hfail
    rcases res with ⟨c, text⟩ | m | m
    · have hc := hfail
      simp only [isFailureResult, Bool.not_eq_true'] at hc
      refine ⟨{ d with
        status := .processing
        attempt_count := d.attempt_count + 1
        last_attempt_at := some tA
        last_http_status := some c
        last_error := some ("HTTP " ++ toString c ++ ": " ++ truncate200 text) }, ?_, rfl⟩
      simp only [deliverWebhook]
      rw [if_neg (by simp [hc])]
    · exact ⟨{ d with
        status := .processing
        attempt_count := d.attempt_count + 1
        last_attempt_at := some tA
        last_http_status := none
        last_error := some ("RequestError: " ++ truncate200 m) }, rfl, rfl⟩
    · exact ⟨{ d with
        status := .processing
        attempt_count := d.attempt_count + 1
        last_attempt_at := some tA
        last_http_status := none
        last_error := some ("Exception: " ++ truncate200 m) }, rfl, rfl⟩

/-- C7 (witness): the schedule at a concrete row with `attempt_count = 3`,
`max_retries = 10`, jitter 1. -/
theorem retry_schedule_and_dead_letter_witness :
    (0 : ℚ) ≤ 1 ∧ (1 : ℚ) ≤ (2 : ℚ) ^ dW7.attempt_count / 5 ∧
    ((dW7.attempt_count ≥ 10 →
      scheduleRetry 10 dW7 100 1 = { dW7 with status := .dead, next_attempt_at := none }) ∧
    (dW7.attempt_count < 10 →
      (scheduleRetry 10 dW7 100 1).status = .failed ∧
      ∃ t, (scheduleRetry 10 dW7 100 1).next_attempt_at = some t ∧
        (2 : ℚ) ^ dW7.attempt_count ≤ t - 100 ∧
        t - 100 ≤ 6 / 5 * (2 : ℚ) ^ dW7.attempt_count) ∧
    (∀ tA tD res (jitter2 : ℚ), isFailureResult res = true →
      ∃ d', deliverWebhook 10 dW7 tA tD res jitter2 =
          scheduleRetry 10 d' tD jitter2 ∧
        d'.attempt_count = dW7.attempt_count + 1)) :=
  ⟨by norm_num, by norm_num [dW7],
    retry_schedule_and_dead_letter 10 dW7 100 1 (by norm_num) (by norm_num [dW7])⟩

/-- C6: `create_refund` fails with a BadRequest — inserting no Refund row —
whenever the active refund total (statuses pending/succeeded) plus the
requested amount (defaulting to the full payment amount) exceeds
`payment.amount`; and consequently the cap `Σ active refund_amount ≤
payment.amount` is preserved by every `create_refund` call. -/
theorem refund_cap_enforced (req : CreateRefundRequest) (payment : Payment)
    (adapter : StripeRefundResult) (nid : Nat) (now : ℚ) (st : GatewayState)
    (hfilter : st.payments.filter (fun p => p.id == req.payment_id) = [payment]) :
    (sumActiveRefunds st.refunds payment.id + req.refund_amount.getD payment.amount >
        payment.amount →
      ∃ c, createRefund req adapter nid now st = (.error (.badRequest c), st)) ∧
    (capOk st = true → capOk (createRefund req adapter nid now st).2 = true) := by
  have hpmem : payment ∈ st.payments.filter (fun p => p.id == req.payment_id) := by
    rw [hfilter]
    exact List.mem_singleton_self payment
  have hmem : payment ∈ st.payments := List.mem_of_mem_filter hpmem
  have hpid : payment.id = req.payment_id := by
    simpa using List.of_mem_filter hpmem
  have huniq : ∀ p' ∈ st.payments, p'.id = payment.id → p' = payment := by
    intro p' hp' hid
    have h0 : p' ∈ st.payments.filter (fun p => p.id == req.payment_id) := by
      rw [List.mem_filter]
      exact ⟨hp', by simp [hid, hpid]⟩
    rw [hfilter] at h0
    simpa using h0
  constructor
  · intro hover
    simp only [createRefund, hfilter, scalarOneOrNone]
    by_cases hsucc : payment.status = .succeeded
    · rw [if_neg (not_not_intro hsucc)]
      cases hamt : req.refund_amount with
      | none =>
        refine ⟨4003, ?_⟩
        dsimp only
        unfold createRefundChecked
        rw [if_pos (by rw [hamt] at hover; simpa using hover)]
      | some amt =>
        by_cases h2 : amt > payment.amount
        · refine ⟨4002, ?_⟩
          dsimp only
          rw [if_pos h2]
        · refine ⟨4003, ?_⟩
          dsimp only
          rw [if_neg h2]
          unfold createRefundChecked
          rw [if_pos (by rw [hamt] at hover; simpa using hover)]
    · exact ⟨4001, by rw [if_pos hsucc]⟩
  · intro hcap
    simp only [createRefund, hfilter, scalarOneOrNone]
    by_cases hsucc : payment.status = .succeeded
    · rw [if_neg (not_not_intro hsucc)]
      cases hamt : req.refund_amount with
      | none =>
        exact createRefundChecked_cap payment payment.amount req.reason adapter nid now st huniq hcap
      | some amt =>
        dsimp only
        by_cases h2 : amt > payment.amount
        · rw [if_pos h2]
          exact hcap
        · rw [if_neg h2]
          exact createRefundChecked_cap payment amt req.reason adapter nid now st huniq hcap
    · rw [if_pos hsucc]
      exact hcap

/-- C6 (witness): with 600 of 1000 already refunded, requesting 500 more is
rejected with a BadRequest and the cap still holds. -/
theorem refund_cap_enforced_witness :
    stC6.payments.filter (fun p => p.id == reqC6.payment_id) = [payC6] ∧
    sumActiveRefunds stC6.refunds payC6.id + reqC6.refund_amount.getD payC6.amount >
      payC6.amount ∧
    capOk stC6 = true ∧
    (∃ c, createRefund reqC6 (.ok "re_2" "succeeded") 42 21 stC6 =
      (.error (.badRequest c), stC6)) ∧
    capOk (createRefund reqC6 (.ok "re_2" "succeeded") 42 21 stC6).2 = true :=
  ⟨by decide, by decide, by decide,
    (refund_cap_enforced reqC6 payC6 (.ok "re_2" "succeeded") 42 21 stC6 (by decide)).1
      (by decide),
    (refund_cap_enforced reqC6 payC6 (.ok "re_2" "succeeded") 42 21 stC6 (by decide)).2
      (by decide)⟩

/-- C8: `_create_webhook_delivery` resolves the notify URL as the payment's
own, else the owning app's; when neither is truthy no row is created and
nothing changes; an existing `(app_id, event_id)` row is re-queued with
`status = pending`, `attempt_count = 0`, `next_attempt_at = now` and
cleared diagnostics; a missing row is inserted as pending with the resolved
URL (trailing slashes stripped) plus the path suffix. -/
theorem webhook_delivery_upsert_semantics (payment : Payment) (eid ety : String)
    (body : WebhookBody) (sfx : String) (did : Nat) (now : ℚ) (st : GatewayState)
    (nu : Option String) (hres : resolveNotifyUrl st payment = .ok nu) :
    (pyTruthy payment.notify_url = true → nu = payment.notify_url) ∧
    (pyTruthy payment.notify_url = false →
      ∀ a, st.apps.filter (fun x => x.id == payment.app_id) = [a] → nu = a.notify_url) ∧
    (pyTruthy nu = false →
      createWebhookDelivery payment eid ety body sfx did now st = .ok st) ∧
    (pyTruthy nu = true →
      (∀ ex, st.deliveries.filter
          (fun x => x.app_id == payment.app_id && x.event_id == eid) = [ex] →
        createWebhookDelivery payment eid ety body sfx did now st = .ok (setDelivery st
          { ex with
            notify_url := rstripSlash (nu.getD "") ++ sfx
            payload := { event_id := eid, event_type := ety, body := body }
            status := .pending
            attempt_count := 0
            next_attempt_at := some now
            last_attempt_at := none
            last_http_status := none
            last_error := none
            delivered_at := none })) ∧
      (st.deliveries.filter
          (fun x => x.app_id == payment.app_id && x.event_id == eid) = [] →
        createWebhookDelivery payment eid ety body sfx did now st = .ok { st with
          deliveries := st.deliveries ++
            [{ id := did
               app_id := payment.app_id
               payment_id := some payment.id
               event_id := eid
               event_type := ety
               notify_url := rstripSlash (nu.getD "") ++ sfx
               payload := { event_id := eid, event_type := ety, body := body }
               status := .pending
               attempt_count := 0
               next_attempt_at := some now
               last_attempt_at := none
               last_http_status := none
               last_error := none
               delivered_at := none }] })) := by
  refine ⟨?_, ?_, ?_, ?_⟩
  · intro h
    unfold resolveNotifyUrl at hres
    rw [if_pos h] at hres
    exact (Except.ok.injEq _ _).mp hres.symm
  · intro h a hfa
    unfold resolveNotifyUrl at hres
    rw [if_neg (by simp [h]), hfa] at hres
    simp only [scalarOneOrNone] at hres
    exact (Except.ok.injEq _ _).mp hres.symm
  · intro h
    simp only [createWebhookDelivery, hres]
    rw [if_pos (by simp [h])]
  · intro h
    constructor
    · intro ex hfe
      simp only [createWebhookDelivery, hres]
      rw [if_neg (by simp [h]), hfe]
      simp only [scalarOneOrNone]
    · intro hfe
      simp only [createWebhookDelivery, hres]
      rw [if_neg (by simp [h]), hfe]
      simp only [scalarOneOrNone]

/-- C8 (witness): no notify URL resolves for `payC8n`, so no delivery row
is created and the state is unchanged. -/
theorem webhook_delivery_upsert_semantics_witness :
    resolveNotifyUrl stC8 payC8n = .ok none ∧ pyTruthy none = false ∧
    createWebhookDelivery payC8n "e80" "payment.succeeded" bodyC8 "/callback/payment"
      81 33 stC8 = .ok stC8 :=
  ⟨by decide, rfl,
    (webhook_delivery_upsert_semantics payC8n "e80" "payment.succeeded" bodyC8
      "/callback/payment" 81 33 stC8 none (by decide)).2.2.1 rfl⟩

/-- C10: `_find_payment` filters on neither `app_id` nor `provider`. In the
state `stC10` — two payments in different apps sharing merchant order
number "dup-1" — the event `evC10`, issued by alipay (raw provider
"alipay") with alipay's transaction reference, locates and advances the
stripe payment of app 1 to `succeeded`. -/
theorem callback_lookup_unscoped_cross_app_advance :
    stC10.payments.map (fun p => (p.app_id, p.merchant_order_no)) =
      [(1, "dup-1"), (2, "dup-1")] ∧
    stC10.payments.map (fun p => p.provider) = [.stripe, .alipay] ∧
    evC10.raw_payload.provider = some "alipay" ∧
    (processCallback evC10 100 21 31 stC10).1 = .ok () ∧
    (processCallback evC10 100 21 31 stC10).2.payments.map (fun p => (p.id, p.status)) =
      [(11, .succeeded), (12, .pending)] := by
  refine ⟨rfl, rfl, rfl, ?_, ?_⟩ <;> decide

end PaymentGateway
